import Mathlib

/-!
Shallow embedding of the certificate location and verification core of the
mlcg service: storage-key derivation (app/services/storage.py), the
verification resolution path (app/services/verification.py), and the
endpoint orchestration for generate, batch, and status
(app/api/endpoints.py). Stateful code is embedded as explicit state
passing over a blob store modelled as a list of existing keys and a
key cache modelled as an association list. External collaborators
(S3 presigning, PDF rendering) are modelled at their interface boundary.
-/

namespace Mlcg

/-- UTC calendar date as produced by datetime.utcnow(): year, month (1-12),
day of month (1-31). -/
structure UtcDate where
  year : Nat
  month : Nat
  day : Nat
deriving DecidableEq, Repr

/-- Python format spec 02d: zero-pad a number to at least two digits. -/
def pad2 (n : Nat) : String :=
  if n < 10 then "0" ++ toString n else toString n

/-- Storage key layout from storage.py upload_certificate (line 294) and
verification.py (lines 56, 65, 76): certificates/year/zero-padded-month/id.pdf. -/
def storageKey (year month : Nat) (certificateId : String) : String :=
  "certificates/" ++ toString year ++ "/" ++ pad2 month ++ "/" ++ certificateId ++ ".pdf"

/-- One calendar month backward with year rollover, from verification.py
lines 63-64 and 72-75: January steps to December of the previous year. -/
def prevPeriod : Nat × Nat → Nat × Nat
  | (y, m) => if m = 1 then (y - 1, 12) else (y, m - 1)

/-- Iterated backward month step, as the inner loop of verification.py
lines 71-75 performs months_back times. -/
def monthsBack (p : Nat × Nat) : Nat → Nat × Nat
  | 0 => p
  | n + 1 => monthsBack (prevPeriod p) n

/-- Shared mutable state: the blob store as the list of existing object keys,
and the key cache as an association list from cache key to cached value. -/
structure SysState where
  store : List String
  cache : List (String × String)
deriving DecidableEq, Repr

/-- Redis GET over the association-list cache model. -/
def cacheGet (c : List (String × String)) (k : String) : Option String :=
  (c.find? (fun e => e.1 == k)).map (fun e => e.2)

/-- Redis SETEX over the association-list cache model (TTL not modelled as a
value; expiry is external). -/
def cacheSet (c : List (String × String)) (k v : String) : List (String × String) :=
  (k, v) :: c.filter (fun e => e.1 != k)

/-- Redis DELETE over the association-list cache model. -/
def cacheDelete (c : List (String × String)) (k : String) : List (String × String) :=
  c.filter (fun e => e.1 != k)

/-- Cached hint as read at the top of verify_certificate (verification.py
lines 48-51) and generate_certificate (endpoints.py lines 62-64): the value
is used only when a client is configured and the value is truthy
(a nonempty string). -/
def cachedHint (hasRedis : Bool) (cache : List (String × String)) (cid : String) :
    Option String :=
  if hasRedis then
    match cacheGet cache ("cert:" ++ cid) with
    | some v => if v = "" then none else some v
    | none => none
  else none

/-- Modelled interface of the S3 presigning collaborator
(storage.py generate_presigned_url): a deterministic function of the object
key and the expiration in seconds. -/
def get_presigned_url (key : String) (expiration : Nat) : String :=
  "https://s3.example.com/" ++ key ++ "?expires=" ++ toString expiration

/-- Full period search of verification.py lines 54-83: probe the current
period key; if absent and the day of month is below 5, probe the previous
month, then two and three months back, stopping at the first existing key. -/
def fullSearch (now : UtcDate) (store : List String) (cid : String) : Option String :=
  let k0 := storageKey now.year now.month cid
  if store.contains k0 then some k0
  else if now.day < 5 then
    let p1 := prevPeriod (now.year, now.month)
    let k1 := storageKey p1.1 p1.2 cid
    if store.contains k1 then some k1
    else
      let p2 := monthsBack (now.year, now.month) 2
      let k2 := storageKey p2.1 p2.2 cid
      if store.contains k2 then some k2
      else
        let p3 := monthsBack (now.year, now.month) 3
        let k3 := storageKey p3.1 p3.2 cid
        if store.contains k3 then some k3 else none
  else none

/-- Mirror of the CertificateVerification response model
(models/certificate.py). -/
structure CertificateVerification where
  certificate_id : String
  user_name : String
  user_email : String
  certificate_type : String
  title : String
  description : Option String
  items_completed : List String
  issued_date : UtcDate
  verification_url : String
  download_url : String
deriving DecidableEq, Repr

/-- The verification record built at verification.py lines 103-114: fixed
placeholder identity fields, a verification URL under the configured base,
and a presigned download URL for the resolved key. -/
def placeholderVerification (verifyBase : String) (now : UtcDate)
    (cid s3Key : String) : CertificateVerification :=
  { certificate_id := cid
    user_name := "Certificate Holder"
    user_email := "certificate@microlearn.university"
    certificate_type := "track"
    title := "Certificate"
    description := none
    items_completed := []
    issued_date := now
    verification_url := verifyBase ++ "/" ++ cid
    download_url := get_presigned_url s3Key 3600 }

/-- VerificationService.verify_certificate (verification.py lines 32-114):
on a truthy cached key, confirm existence and answer from the hint, or
delete the stale entry and return none; without a hint, run the full period
search. Returns the result together with the updated state. -/
def verify_certificate (hasRedis : Bool) (verifyBase : String) (now : UtcDate)
    (st : SysState) (cid : String) :
    Option CertificateVerification × SysState :=
  match cachedHint hasRedis st.cache cid with
  | none =>
    match fullSearch now st.store cid with
    | some k => (some (placeholderVerification verifyBase now cid k), st)
    | none => (none, st)
  | some k =>
    if st.store.contains k then
      (some (placeholderVerification verifyBase now cid k), st)
    else
      (none, { st with cache := cacheDelete st.cache ("cert:" ++ cid) })

/-- Candidate key sequence as the specification describes the resolver:
the current period key, followed, when the day of month is below 5, by the
keys of one, two and three months back. -/
def candidateKeys (now : UtcDate) (cid : String) : List String :=
  storageKey now.year now.month cid ::
    (if now.day < 5 then
      [1, 2, 3].map (fun n =>
        let p := monthsBack (now.year, now.month) n
        storageKey p.1 p.2 cid)
    else [])

theorem monthsBack_one (p : Nat × Nat) : monthsBack p 1 = prevPeriod p := rfl

/-- C2: the full search probes the current UTC period key first; when it is
absent and the day of month is below 5 it probes the keys of one, two and
three months back in order, stopping at the first existing key; when the day
of month is 5 or more only the current period is probed; January rolls back
to December of the previous year. -/
theorem fullSearch_eq_find_candidateKeys (now : UtcDate) (store : List String)
    (cid : String) :
    fullSearch now store cid =
      (candidateKeys now cid).find? (fun k => store.contains k) ∧
    (∀ y : Nat, prevPeriod (y, 1) = (y - 1, 12)) ∧
    (∀ y m : Nat, m ≠ 1 → prevPeriod (y, m) = (y, m - 1)) := by
  refine ⟨?_, ?_, ?_⟩
  · unfold fullSearch candidateKeys
    by_cases h0 : storageKey now.year now.month cid ∈ store
    · simp [List.find?, h0]
    · by_cases hd : now.day < 5
      · by_cases h1 : storageKey (prevPeriod (now.year, now.month)).1
            (prevPeriod (now.year, now.month)).2 cid ∈ store
        · simp [List.find?, monthsBack_one, h0, hd, h1]
        · by_cases h2 : storageKey (monthsBack (now.year, now.month) 2).1
              (monthsBack (now.year, now.month) 2).2 cid ∈ store
          · simp [List.find?, monthsBack_one, h0, hd, h1, h2]
          · by_cases h3 : storageKey (monthsBack (now.year, now.month) 3).1
                (monthsBack (now.year, now.month) 3).2 cid ∈ store
            · simp [List.find?, monthsBack_one, h0, hd, h1, h2, h3]
            · simp [List.find?, monthsBack_one, h0, hd, h1, h2, h3]
      · simp [List.find?, h0, hd]
  · intro y
    simp [prevPeriod]
  · intro y m hm
    simp [prevPeriod, hm]

/-- Mirror of the CertificateResponse model (models/certificate.py). -/
structure CertificateResponse where
  certificate_id : String
  s3_key : String
  public_url : String
  generated_at : UtcDate
  status : String
deriving DecidableEq, Repr

/-- Observable side effects of the generation path, used to state that the
rendering collaborator, the storage upload and the cache write do or do not
happen on a given call. -/
inductive Effect where
  | render (certificateId : String)
  | upload (key : String)
  | cacheWrite (key value : String)
deriving DecidableEq, Repr

/-- Endpoint generate_certificate (endpoints.py lines 46-117), with the
rendering collaborator and the upload outcome passed in as oracles: a truthy
cached value short-circuits with a cached response; otherwise render, upload
under the current period key, write the cache when a client is configured,
and answer with a presigned URL. A failing render or upload raises, which
the endpoint surfaces as a generation error; the state is returned together
with the trace of completed effects. -/
def generate_certificate (hasRedis : Bool) (now : UtcDate)
    (renderResult : Option String) (uploadOk : Bool)
    (st : SysState) (cid : String) :
    Except String CertificateResponse × SysState × List Effect :=
  match cachedHint hasRedis st.cache cid with
  | some cachedUrl =>
    (.ok { certificate_id := cid
           s3_key := "certificates/" ++ cid ++ ".pdf"
           public_url := cachedUrl
           generated_at := now
           status := "cached" }, st, [])
  | none =>
    match renderResult with
    | none => (.error "Failed to generate certificate", st, [.render cid])
    | some _pdf =>
      if uploadOk then
        let key := storageKey now.year now.month cid
        let st1 : SysState := { st with store := key :: st.store }
        let st2 : SysState :=
          if hasRedis then { st1 with cache := cacheSet st1.cache ("cert:" ++ cid) key }
          else st1
        (.ok { certificate_id := cid
               s3_key := key
               public_url := get_presigned_url key 3600
               generated_at := now
               status := "completed" }, st2,
         [.render cid, .upload key] ++
           (if hasRedis then [Effect.cacheWrite ("cert:" ++ cid) key] else []))
      else (.error "Failed to generate certificate", st, [.render cid])

theorem storageKey_ne_empty (y m : Nat) (cid : String) :
    storageKey y m cid ≠ "" := by
  unfold storageKey
  intro h
  have h2 := congrArg String.length h
  simp [String.length_append] at h2
  exact absurd h2.1.1.1.1.1.1 (by decide)

/-- State for the C1 counterexample: the store holds the certificate under
the current period key, while the cache holds a stale entry pointing at the
previous period key, which no longer exists. -/
def c1State : SysState :=
  { store := [storageKey 2025 9 "ID1"]
    cache := [("cert:ID1", "certificates/2025/08/ID1.pdf")] }

/-- C1 counterexample: with a stale cached key, verify returns none even
though the full period search would find the certificate under the current
period key, so verify does not fall through to the full search. -/
theorem verify_stale_hint_no_fallthrough_counterexample :
    (verify_certificate true "https://v" ⟨2025, 9, 10⟩ c1State "ID1").1 = none ∧
    fullSearch ⟨2025, 9, 10⟩ c1State.store "ID1" = some (storageKey 2025 9 "ID1") := by
  exact ⟨rfl, rfl⟩

/-- C1 amended: when the cached key for a certificate fails the existence
check, verify deletes the stale cache entry and returns none immediately,
without running the full period search. -/
theorem verify_stale_hint_deletes_and_returns_none (verifyBase : String)
    (now : UtcDate) (st : SysState) (cid v : String)
    (hc : cacheGet st.cache ("cert:" ++ cid) = some v) (hv : v ≠ "")
    (hex : v ∉ st.store) :
    verify_certificate true verifyBase now st cid =
      (none, { st with cache := cacheDelete st.cache ("cert:" ++ cid) }) := by
  unfold verify_certificate cachedHint
  rw [hc]
  simp [hv, hex]

/-- Witness for the amended C1 theorem at a concrete state. -/
theorem verify_stale_hint_deletes_and_returns_none_witness :
    verify_certificate true "https://v" ⟨2025, 9, 10⟩ c1State "ID1" =
      (none, { c1State with cache := cacheDelete c1State.cache ("cert:" ++ "ID1") }) :=
  verify_stale_hint_deletes_and_returns_none "https://v" ⟨2025, 9, 10⟩ c1State "ID1"
    "certificates/2025/08/ID1.pdf" rfl (by decide) (by decide)

/-- C4: with the cache enabled, a second generate call for the same
certificate_id after a successful first call answers with status cached,
performs no effects (no render, no upload), and leaves the state unchanged. -/
theorem generate_second_call_short_circuits (now now2 : UtcDate) (p : String)
    (pdf2 : Option String) (u2 : Bool) (st : SysState) (cid : String) :
    ∃ r, (generate_certificate true now2 pdf2 u2
        (generate_certificate true now (some p) true st cid).2.1 cid).1 = .ok r ∧
      r.status = "cached" ∧
      (generate_certificate true now2 pdf2 u2
        (generate_certificate true now (some p) true st cid).2.1 cid).2.2 = [] ∧
      (generate_certificate true now2 pdf2 u2
          (generate_certificate true now (some p) true st cid).2.1 cid).2.1 =
        (generate_certificate true now (some p) true st cid).2.1 := by
  cases h : cachedHint true st.cache cid with
  | some u =>
    refine ⟨{ certificate_id := cid, s3_key := "certificates/" ++ cid ++ ".pdf",
              public_url := u, generated_at := now2, status := "cached" },
            ?_, ?_, ?_, ?_⟩ <;>
      simp [generate_certificate, h]
  | none =>
    have hkey := storageKey_ne_empty now.year now.month cid
    have h2 : cachedHint true (("cert:" ++ cid, storageKey now.year now.month cid) ::
        List.filter (fun e => e.1 != "cert:" ++ cid) st.cache) cid =
        some (storageKey now.year now.month cid) := by
      simp [cachedHint, cacheGet, hkey]
    refine ⟨{ certificate_id := cid, s3_key := "certificates/" ++ cid ++ ".pdf",
              public_url := storageKey now.year now.month cid,
              generated_at := now2, status := "cached" },
            ?_, ?_, ?_, ?_⟩ <;>
      simp [generate_certificate, h, cacheSet, h2]

/-- C5: when a generate call misses the cache and the render or the upload
fails, the call surfaces a generation error, the state (store and cache) is
unchanged, and no upload or cache write appears in the effect trace. -/
theorem generate_failure_leaves_cache_unchanged (hasRedis : Bool) (now : UtcDate)
    (renderResult : Option String) (uploadOk : Bool) (st : SysState) (cid : String)
    (hmiss : cachedHint hasRedis st.cache cid = none)
    (hfail : renderResult = none ∨ uploadOk = false) :
    (∃ e, (generate_certificate hasRedis now renderResult uploadOk st cid).1 =
      .error e) ∧
    (generate_certificate hasRedis now renderResult uploadOk st cid).2.1 = st ∧
    (generate_certificate hasRedis now renderResult uploadOk st cid).2.2 =
      [.render cid] := by
  rcases hfail with hf | hf
  · subst hf
    simp [generate_certificate, hmiss]
  · subst hf
    cases renderResult with
    | none => simp [generate_certificate, hmiss]
    | some q => simp [generate_certificate, hmiss]

/-- Witness for the C5 theorem at a concrete state. -/
theorem generate_failure_leaves_cache_unchanged_witness :
    (∃ e, (generate_certificate true ⟨2025, 9, 10⟩ none true
      { store := [], cache := [] } "W5").1 = .error e) ∧
    (generate_certificate true ⟨2025, 9, 10⟩ none true
      { store := [], cache := [] } "W5").2.1 = { store := [], cache := [] } ∧
    (generate_certificate true ⟨2025, 9, 10⟩ none true
      { store := [], cache := [] } "W5").2.2 = [.render "W5"] :=
  generate_failure_leaves_cache_unchanged true ⟨2025, 9, 10⟩ none true
    { store := [], cache := [] } "W5" rfl (Or.inl rfl)

/-- C6: a fresh generate stores the certificate under the key
certificates/YYYY/MM/id.pdf derived from the generation-time UTC period,
with the month zero-padded to two digits. -/
theorem generate_uploads_under_period_key (hasRedis : Bool) (now : UtcDate)
    (p : String) (st : SysState) (cid : String)
    (hmiss : cachedHint hasRedis st.cache cid = none) :
    (generate_certificate hasRedis now (some p) true st cid).2.1.store =
      storageKey now.year now.month cid :: st.store ∧
    Effect.upload (storageKey now.year now.month cid) ∈
      (generate_certificate hasRedis now (some p) true st cid).2.2 ∧
    storageKey now.year now.month cid =
      "certificates/" ++ toString now.year ++ "/" ++ pad2 now.month ++ "/" ++
        cid ++ ".pdf" ∧
    (1 ≤ now.month → now.month ≤ 12 → (pad2 now.month).length = 2 ∧
      (now.month < 10 → pad2 now.month = "0" ++ toString now.month)) := by
  refine ⟨?_, ?_, rfl, ?_⟩
  · cases hasRedis <;> simp [generate_certificate, hmiss]
  · cases hasRedis <;> simp [generate_certificate, hmiss]
  · intro h1 h2
    set m := now.month with hm
    interval_cases m <;> exact (by decide)

/-- Witness for the C6 theorem at a concrete state. -/
theorem generate_uploads_under_period_key_witness :
    (generate_certificate true ⟨2025, 9, 10⟩ (some "pdf") true
      { store := [], cache := [] } "W6").2.1.store =
      storageKey 2025 9 "W6" :: [] ∧
    Effect.upload (storageKey 2025 9 "W6") ∈
      (generate_certificate true ⟨2025, 9, 10⟩ (some "pdf") true
        { store := [], cache := [] } "W6").2.2 ∧
    storageKey 2025 9 "W6" =
      "certificates/" ++ toString 2025 ++ "/" ++ pad2 9 ++ "/" ++ "W6" ++ ".pdf" ∧
    (1 ≤ 9 → 9 ≤ 12 → (pad2 9).length = 2 ∧
      (9 < 10 → pad2 9 = "0" ++ toString 9)) :=
  generate_uploads_under_period_key true ⟨2025, 9, 10⟩ "pdf"
    { store := [], cache := [] } "W6" rfl

/-- C10: a generate call that hits the cache answers with the flat key
certificates/id.pdf, with no period segments, and a public_url equal to the
cached value verbatim; a fresh generate writes the period storage key, not a
signed URL, into the cache. -/
theorem generate_cache_hit_flat_key_and_cached_value (now now2 : UtcDate)
    (renderResult : Option String) (uploadOk : Bool) (st stf : SysState)
    (cid u p : String)
    (hhit : cachedHint true st.cache cid = some u)
    (hmiss : cachedHint true stf.cache cid = none) :
    (generate_certificate true now renderResult uploadOk st cid).1 =
      .ok { certificate_id := cid
            s3_key := "certificates/" ++ cid ++ ".pdf"
            public_url := u
            generated_at := now
            status := "cached" } ∧
    cacheGet (generate_certificate true now2 (some p) true stf cid).2.1.cache
        ("cert:" ++ cid) = some (storageKey now2.year now2.month cid) ∧
    storageKey now2.year now2.month cid ≠
      get_presigned_url (storageKey now2.year now2.month cid) 3600 := by
  refine ⟨?_, ?_, ?_⟩
  · simp [generate_certificate, hhit]
  · simp [generate_certificate, hmiss, cacheGet, cacheSet, List.find?]
  · intro h
    have h2 := congrArg String.length h
    simp [get_presigned_url, String.length_append] at h2
    have hl : ("https://s3.example.com/".length) = 23 := by decide
    have hq : ("?expires=".length) = 9 := by decide
    have ht : ((toString (3600 : Nat)).length) = 4 := by decide
    rw [hl, hq, ht] at h2
    omega

/-- Mirror of the CertificateStatus model (models/certificate.py), with the
fields the status endpoint populates. -/
structure CertificateStatus where
  certificate_id : String
  status : String
  error_message : Option String
  download_url : Option String
deriving DecidableEq, Repr

/-- Endpoint get_certificate_status (endpoints.py lines 274-320): read the
cached key when a client is configured; when it is absent or falsy construct
the current period key; answer completed with a fresh presigned URL when
that single key exists, and not_found with an error message otherwise.
No lookback months are probed and the cache is never written or deleted. -/
def get_certificate_status (hasRedis : Bool) (now : UtcDate) (st : SysState)
    (cid : String) : CertificateStatus × SysState :=
  let s3Key :=
    match cachedHint hasRedis st.cache cid with
    | some k => k
    | none => storageKey now.year now.month cid
  if st.store.contains s3Key then
    ({ certificate_id := cid, status := "completed", error_message := none,
       download_url := some (get_presigned_url s3Key 3600) }, st)
  else
    ({ certificate_id := cid, status := "not_found",
       error_message := some "Certificate not found", download_url := none }, st)

/-- State for the C3 counterexample: the certificate exists only under the
previous period key and nothing is cached. -/
def c3State : SysState := { store := [storageKey 2025 2 "ID3"], cache := [] }

/-- C3 counterexample: on March 3 a certificate filed under February is
found by verify through the grace-window lookback, yet the status endpoint
reports not_found, so get_certificate_status does not follow the same
resolution path as verify. -/
theorem get_status_not_same_resolution_counterexample :
    (get_certificate_status true ⟨2025, 3, 3⟩ c3State "ID3").1.status =
      "not_found" ∧
    ((verify_certificate true "https://v" ⟨2025, 3, 3⟩ c3State "ID3").1).isSome =
      true :=
  ⟨rfl, rfl⟩

/-- C3 amended: get_certificate_status resolves only through the cached key
or, failing that, the current period key: the state is returned unchanged
(no stale cache deletion), the status is completed with a fresh presigned
URL for that single key exactly when the key exists, and otherwise the
status is not_found with an error message and no exception. -/
theorem get_status_single_key_characterization (hasRedis : Bool) (now : UtcDate)
    (st : SysState) (cid : String) :
    (get_certificate_status hasRedis now st cid).2 = st ∧
    ((get_certificate_status hasRedis now st cid).1.status = "completed" ∨
      (get_certificate_status hasRedis now st cid).1.status = "not_found") ∧
    ((get_certificate_status hasRedis now st cid).1.status = "completed" ↔
      ((cachedHint hasRedis st.cache cid).getD
        (storageKey now.year now.month cid)) ∈ st.store) ∧
    ((get_certificate_status hasRedis now st cid).1.status = "completed" →
      (get_certificate_status hasRedis now st cid).1.download_url =
        some (get_presigned_url ((cachedHint hasRedis st.cache cid).getD
          (storageKey now.year now.month cid)) 3600)) ∧
    ((get_certificate_status hasRedis now st cid).1.status = "not_found" →
      (get_certificate_status hasRedis now st cid).1.error_message =
        some "Certificate not found") := by
  unfold get_certificate_status
  cases hc : cachedHint hasRedis st.cache cid with
  | none =>
    by_cases hmem : storageKey now.year now.month cid ∈ st.store <;>
      simp [hc, hmem]
  | some k =>
    by_cases hmem : k ∈ st.store <;> simp [hc, hmem]

/-- C7: with no cache client configured, verify leaves the state unchanged
and returns exactly what a configured client returns on a cache miss: the
two calls agree whenever the cache holds no truthy entry for the
certificate. -/
theorem verify_no_cache_same_as_miss (verifyBase : String) (now : UtcDate)
    (st : SysState) (cid : String)
    (hmiss : cachedHint true st.cache cid = none) :
    verify_certificate false verifyBase now st cid =
      verify_certificate true verifyBase now st cid ∧
    (verify_certificate false verifyBase now st cid).2 = st := by
  have h0 : cachedHint false st.cache cid = none := rfl
  constructor
  · unfold verify_certificate
    rw [h0, hmiss]
  · unfold verify_certificate
    rw [h0]
    cases h : fullSearch now st.store cid <;> simp

/-- Witness for the C7 theorem at a concrete state. -/
theorem verify_no_cache_same_as_miss_witness :
    verify_certificate false "https://v" ⟨2025, 9, 10⟩
        { store := [], cache := [] } "W7" =
      verify_certificate true "https://v" ⟨2025, 9, 10⟩
        { store := [], cache := [] } "W7" ∧
    (verify_certificate false "https://v" ⟨2025, 9, 10⟩
        { store := [], cache := [] } "W7").2 = { store := [], cache := [] } :=
  verify_no_cache_same_as_miss "https://v" ⟨2025, 9, 10⟩
    { store := [], cache := [] } "W7" rfl

/-- Witness for the C10 theorem at concrete states. -/
theorem generate_cache_hit_flat_key_and_cached_value_witness :
    (generate_certificate true ⟨2025, 9, 10⟩ none false
      { store := [], cache := [("cert:W10", "certificates/2025/09/W10.pdf")] }
      "W10").1 =
      .ok { certificate_id := "W10"
            s3_key := "certificates/" ++ "W10" ++ ".pdf"
            public_url := "certificates/2025/09/W10.pdf"
            generated_at := ⟨2025, 9, 10⟩
            status := "cached" } ∧
    cacheGet (generate_certificate true ⟨2025, 10, 2⟩ (some "pdf") true
        { store := [], cache := [] } "W10").2.1.cache ("cert:" ++ "W10") =
      some (storageKey 2025 10 "W10") ∧
    storageKey 2025 10 "W10" ≠
      get_presigned_url (storageKey 2025 10 "W10") 3600 :=
  generate_cache_hit_flat_key_and_cached_value ⟨2025, 9, 10⟩ ⟨2025, 10, 2⟩
    none false
    { store := [], cache := [("cert:W10", "certificates/2025/09/W10.pdf")] }
    { store := [], cache := [] } "W10" "certificates/2025/09/W10.pdf" "pdf"
    rfl rfl

/-- C9: a successful verification carries only placeholder identity fields:
a constant holder name, email, certificate type and title, no description,
an empty completed-items list; the certificate id, the verification URL
under the configured base, and a presigned download URL are the only
input-dependent fields. -/
theorem verify_placeholder_identity (hasRedis : Bool) (verifyBase : String)
    (now : UtcDate) (st : SysState) (cid : String) (v : CertificateVerification)
    (h : (verify_certificate hasRedis verifyBase now st cid).1 = some v) :
    v.user_name = "Certificate Holder" ∧
    v.user_email = "certificate@microlearn.university" ∧
    v.certificate_type = "track" ∧
    v.title = "Certificate" ∧
    v.description = none ∧
    v.items_completed = [] ∧
    v.certificate_id = cid ∧
    v.verification_url = verifyBase ++ "/" ++ cid ∧
    ∃ k, v.download_url = get_presigned_url k 3600 := by
  unfold verify_certificate at h
  cases hc : cachedHint hasRedis st.cache cid with
  | none =>
    rw [hc] at h
    cases hf : fullSearch now st.store cid with
    | none => rw [hf] at h; cases h
    | some k =>
      rw [hf] at h
      simp only [Option.some.injEq] at h
      subst h
      exact ⟨rfl, rfl, rfl, rfl, rfl, rfl, rfl, rfl, k, rfl⟩
  | some k =>
    rw [hc] at h
    by_cases hmem : k ∈ st.store
    · simp [hmem] at h
      subst h
      exact ⟨rfl, rfl, rfl, rfl, rfl, rfl, rfl, rfl, k, rfl⟩
    · simp [hmem] at h

/-- Witness for the C9 theorem at a concrete state. -/
theorem verify_placeholder_identity_witness :
    (placeholderVerification "https://v" ⟨2025, 9, 10⟩ "W9"
        (storageKey 2025 9 "W9")).user_name = "Certificate Holder" ∧
    (placeholderVerification "https://v" ⟨2025, 9, 10⟩ "W9"
        (storageKey 2025 9 "W9")).user_email =
      "certificate@microlearn.university" ∧
    (placeholderVerification "https://v" ⟨2025, 9, 10⟩ "W9"
        (storageKey 2025 9 "W9")).certificate_type = "track" ∧
    (placeholderVerification "https://v" ⟨2025, 9, 10⟩ "W9"
        (storageKey 2025 9 "W9")).title = "Certificate" ∧
    (placeholderVerification "https://v" ⟨2025, 9, 10⟩ "W9"
        (storageKey 2025 9 "W9")).description = none ∧
    (placeholderVerification "https://v" ⟨2025, 9, 10⟩ "W9"
        (storageKey 2025 9 "W9")).items_completed = [] ∧
    (placeholderVerification "https://v" ⟨2025, 9, 10⟩ "W9"
        (storageKey 2025 9 "W9")).certificate_id = "W9" ∧
    (placeholderVerification "https://v" ⟨2025, 9, 10⟩ "W9"
        (storageKey 2025 9 "W9")).verification_url = "https://v" ++ "/" ++ "W9" ∧
    ∃ k, (placeholderVerification "https://v" ⟨2025, 9, 10⟩ "W9"
        (storageKey 2025 9 "W9")).download_url = get_presigned_url k 3600 :=
  verify_placeholder_identity true "https://v" ⟨2025, 9, 10⟩
    { store := [storageKey 2025 9 "W9"], cache := [] } "W9"
    (placeholderVerification "https://v" ⟨2025, 9, 10⟩ "W9"
      (storageKey 2025 9 "W9")) rfl

/-- One entry of a batch request, with the render and upload oracles for
that item. -/
structure BatchItem where
  cid : String
  renderResult : Option String
  uploadOk : Bool
deriving DecidableEq, Repr

/-- Job metadata recorded in Redis by the async branch of
generate_batch_certificates (endpoints.py lines 140-147). -/
structure JobInfo where
  total : Nat
  status : String
  created_at : UtcDate
deriving DecidableEq, Repr

/-- Mirror of the BatchCertificateResponse model (models/certificate.py). -/
structure BatchCertificateResponse where
  job_id : String
  total_certificates : Nat
  status : String
  created_at : UtcDate
  certificates : Option (List CertificateResponse)
deriving DecidableEq, Repr

/-- Synchronous loop of generate_batch_certificates (endpoints.py lines
157-189): render and upload each item in order under the current period
key; the first raising item aborts the whole call, leaving earlier uploads
in place. The batch loop neither reads nor writes the key cache. -/
def runBatchItems (now : UtcDate) :
    List BatchItem → SysState → Except String (List CertificateResponse) × SysState
  | [], st => (.ok [], st)
  | item :: rest, st =>
    match item.renderResult with
    | none => (.error "Failed to generate batch certificates", st)
    | some _pdf =>
      if item.uploadOk then
        let key := storageKey now.year now.month item.cid
        let st1 : SysState := { st with store := key :: st.store }
        let resp : CertificateResponse :=
          { certificate_id := item.cid
            s3_key := key
            public_url := get_presigned_url key 3600
            generated_at := now
            status := "completed" }
        match runBatchItems now rest st1 with
        | (.ok certs, st2) => (.ok (resp :: certs), st2)
        | (.error e, st2) => (.error e, st2)
      else (.error "Failed to generate batch certificates", st)

/-- Endpoint generate_batch_certificates (endpoints.py lines 120-203): the
async branch records job metadata under the job id when a Redis client is
configured and returns a queued response with no certificate list; the sync
branch runs the items sequentially and returns a completed response with
one record per item, or fails the whole call. -/
def generate_batch (hasRedis : Bool) (now : UtcDate) (jobId : String)
    (items : List BatchItem) (asyncProcessing : Bool)
    (st : SysState) (jobs : List (String × JobInfo)) :
    Except String BatchCertificateResponse × SysState × List (String × JobInfo) :=
  if asyncProcessing then
    let jobs2 :=
      if hasRedis then
        ("batch:" ++ jobId,
          { total := items.length, status := "queued", created_at := now }) :: jobs
      else jobs
    (.ok { job_id := jobId, total_certificates := items.length, status := "queued",
           created_at := now, certificates := none }, st, jobs2)
  else
    match runBatchItems now items st with
    | (.ok certs, st2) =>
      (.ok { job_id := jobId, total_certificates := items.length,
             status := "completed", created_at := now,
             certificates := some certs }, st2, jobs)
    | (.error e, st2) => (.error e, st2, jobs)

theorem runBatchItems_all_ok (now : UtcDate) :
    ∀ (items : List BatchItem) (st : SysState),
      (∀ i ∈ items, i.renderResult.isSome ∧ i.uploadOk = true) →
      ∃ certs, (runBatchItems now items st).1 = .ok certs ∧
        certs.length = items.length := by
  intro items
  induction items with
  | nil => exact fun st _ => ⟨[], rfl, rfl⟩
  | cons item rest ih =>
    intro st h
    obtain ⟨hr, hu⟩ := h item (List.mem_cons_self _ _)
    cases hrr : item.renderResult with
    | none => rw [hrr] at hr; cases hr
    | some q =>
      have hrest := fun i hi => h i (List.mem_cons_of_mem _ hi)
      obtain ⟨certs, hc, hl⟩ := ih
        { store := storageKey now.year now.month item.cid :: st.store,
          cache := st.cache } hrest
      simp only [runBatchItems, hrr, hu, if_true]
      cases hrun : runBatchItems now rest
        { store := storageKey now.year now.month item.cid :: st.store,
          cache := st.cache } with
      | mk res st2 =>
        rw [hrun] at hc
        cases res with
        | ok cs =>
          simp only at hc
          cases hc
          exact ⟨_, rfl, by simpa using hl⟩
        | error e => cases hc

theorem runBatchItems_any_fails (now : UtcDate) :
    ∀ (items : List BatchItem) (st : SysState),
      (∃ i ∈ items, i.renderResult = none ∨ i.uploadOk = false) →
      ∃ e, (runBatchItems now items st).1 = .error e := by
  intro items
  induction items with
  | nil =>
    intro st h
    obtain ⟨i, hi, _⟩ := h
    exact absurd hi (List.not_mem_nil _)
  | cons item rest ih =>
    intro st h
    cases hrr : item.renderResult with
    | none =>
      exact ⟨"Failed to generate batch certificates",
        by simp [runBatchItems, hrr]⟩
    | some q =>
      by_cases hu : item.uploadOk = true
      · obtain ⟨i, hi, hfail⟩ := h
        rcases List.mem_cons.mp hi with rfl | hrest
        · rcases hfail with hf | hf
          · rw [hrr] at hf; cases hf
          · rw [hu] at hf; cases hf
        · obtain ⟨e, he⟩ := ih
            { store := storageKey now.year now.month item.cid :: st.store,
              cache := st.cache } ⟨i, hrest, hfail⟩
          simp only [runBatchItems, hrr, hu, if_true]
          cases hrun : runBatchItems now rest
            { store := storageKey now.year now.month item.cid :: st.store,
              cache := st.cache } with
          | mk res st2 =>
            rw [hrun] at he
            cases res with
            | ok cs => cases he
            | error e2 => exact ⟨e2, rfl⟩
      · have hu2 : item.uploadOk = false := by
          cases hb : item.uploadOk
          · rfl
          · exact absurd hb hu
        exact ⟨"Failed to generate batch certificates",
          by simp [runBatchItems, hrr, hu2]⟩

/-- C8: with a Redis client configured, the async branch of generate_batch
records total, queued status and creation time under the job id and returns
a queued response with no certificate records and an unchanged store; the
sync branch returns a completed response with exactly one certificate
record per input when every item succeeds, and fails the whole call when
any single item fails. -/
theorem generate_batch_async_and_sync (now : UtcDate) (jobId : String)
    (items : List BatchItem) (st : SysState) (jobs : List (String × JobInfo)) :
    generate_batch true now jobId items true st jobs =
      (.ok { job_id := jobId, total_certificates := items.length,
             status := "queued", created_at := now, certificates := none }, st,
       ("batch:" ++ jobId,
         { total := items.length, status := "queued", created_at := now }) :: jobs) ∧
    ((∀ i ∈ items, i.renderResult.isSome ∧ i.uploadOk = true) →
      ∃ certs, generate_batch true now jobId items false st jobs =
        (.ok { job_id := jobId, total_certificates := items.length,
               status := "completed", created_at := now,
               certificates := some certs },
         (runBatchItems now items st).2, jobs) ∧
        certs.length = items.length) ∧
    ((∃ i ∈ items, i.renderResult = none ∨ i.uploadOk = false) →
      ∃ e, (generate_batch true now jobId items false st jobs).1 = .error e) := by
  refine ⟨by simp [generate_batch], ?_, ?_⟩
  · intro hall
    obtain ⟨certs, hc, hl⟩ := runBatchItems_all_ok now items st hall
    refine ⟨certs, ?_, hl⟩
    unfold generate_batch
    cases hrun : runBatchItems now items st with
    | mk res st2 =>
      rw [hrun] at hc
      cases res with
      | ok cs =>
        simp only at hc
        cases hc
        rfl
      | error e => cases hc
  · intro hsome
    obtain ⟨e, he⟩ := runBatchItems_any_fails now items st hsome
    unfold generate_batch
    cases hrun : runBatchItems now items st with
    | mk res st2 =>
      rw [hrun] at he
      cases res with
      | ok cs => cases he
      | error e2 => exact ⟨e2, rfl⟩

/-- Witness for the C8 theorem at a concrete batch of two items. -/
theorem generate_batch_async_and_sync_witness :
    generate_batch true ⟨2025, 9, 10⟩ "J8"
        [⟨"B1", some "p1", true⟩, ⟨"B2", some "p2", true⟩] true
        { store := [], cache := [] } [] =
      (.ok { job_id := "J8",
             total_certificates :=
               ([⟨"B1", some "p1", true⟩,
                 ⟨"B2", some "p2", true⟩] : List BatchItem).length,
             status := "queued", created_at := ⟨2025, 9, 10⟩,
             certificates := none }, { store := [], cache := [] },
       ("batch:" ++ "J8",
         { total := ([⟨"B1", some "p1", true⟩,
             ⟨"B2", some "p2", true⟩] : List BatchItem).length,
           status := "queued", created_at := ⟨2025, 9, 10⟩ }) :: []) ∧
    ((∀ i ∈ ([⟨"B1", some "p1", true⟩,
        ⟨"B2", some "p2", true⟩] : List BatchItem),
        i.renderResult.isSome ∧ i.uploadOk = true) →
      ∃ certs, generate_batch true ⟨2025, 9, 10⟩ "J8"
          [⟨"B1", some "p1", true⟩, ⟨"B2", some "p2", true⟩] false
          { store := [], cache := [] } [] =
        (.ok { job_id := "J8",
               total_certificates :=
                 ([⟨"B1", some "p1", true⟩,
                   ⟨"B2", some "p2", true⟩] : List BatchItem).length,
               status := "completed", created_at := ⟨2025, 9, 10⟩,
               certificates := some certs },
         (runBatchItems ⟨2025, 9, 10⟩
           [⟨"B1", some "p1", true⟩, ⟨"B2", some "p2", true⟩]
           { store := [], cache := [] }).2, []) ∧
        certs.length =
          ([⟨"B1", some "p1", true⟩,
            ⟨"B2", some "p2", true⟩] : List BatchItem).length) ∧
    ((∃ i ∈ ([⟨"B1", some "p1", true⟩,
        ⟨"B2", some "p2", true⟩] : List BatchItem),
        i.renderResult = none ∨ i.uploadOk = false) →
      ∃ e, (generate_batch true ⟨2025, 9, 10⟩ "J8"
          [⟨"B1", some "p1", true⟩, ⟨"B2", some "p2", true⟩] false
          { store := [], cache := [] } []).1 = .error e) :=
  generate_batch_async_and_sync ⟨2025, 9, 10⟩ "J8"
    [⟨"B1", some "p1", true⟩, ⟨"B2", some "p2", true⟩]
    { store := [], cache := [] } []

end Mlcg
